import Mathlib

/-!
Verification development for the cognitive-performance-analyzer ingestion
pipeline.  The Python modules `src/cleaners/clean.py`, `src/validators/validate.py`
and `src/loaders/load.py` are shallowly embedded below: Python values flowing
through the pipeline become the inductive type `Value`, dict records become
association lists, and the PostgreSQL-backed store becomes an explicit
`Store` state threaded through the loader operations.  Wall-clock time
(`datetime.now()`) and store-level write failures are modelled as explicit
parameters, so that every function is pure and executable.
-/

/-- A Python value as it occurs in pipeline records.  Timestamps are minutes
since an epoch whose minute 0 starts a Monday at midnight; `vtstr t` stands
for a datetime-formatted string that `pd.to_datetime` parses to time `t`
(a plain `vstr` fed to the timestamp parser fails to parse), `vts t` for a
`pandas.Timestamp`, and `vdt t` for a native `datetime`. -/
inductive Value where
  | vnone
  | vbool (b : Bool)
  | vint (n : Int)
  | vfloat (q : Rat)
  | vstr (s : String)
  | vtstr (t : Nat)
  | vts (t : Nat)
  | vdt (t : Nat)
deriving DecidableEq, Repr

/-- A Python dict record: association list from field name to value.
Lookup takes the first binding for a key. -/
abbrev Record := List (String × Value)

/-- `dict.get(k)` / `dict[k]` presence lookup. -/
def recGet (r : Record) (k : String) : Option Value :=
  (r.find? (fun p => p.1 == k)).map Prod.snd

/-- `dict.get(k, d)`. -/
def recGetD (r : Record) (k : String) (d : Value) : Value :=
  (recGet r k).getD d

/-- `record[k] = v` (in-place assignment, modelled functionally). -/
def setField (r : Record) (k : String) (v : Value) : Record :=
  (k, v) :: r.filter (fun p => p.1 ≠ k)

/-- Python `str(value)` on the modelled value universe (the exact rendering
of datetime objects is abstracted; only the surrounding message text is
load-bearing for the claims). -/
def showValue : Value → String
  | .vnone => "None"
  | .vbool b => if b then "True" else "False"
  | .vint n => toString n
  | .vfloat q => toString q
  | .vstr s => s
  | .vtstr t => "ts:" ++ toString t
  | .vts t => "ts:" ++ toString t
  | .vdt t => "ts:" ++ toString t

/-- Python truthiness `bool(value)` on the modelled universe. -/
def truthyValue : Value → Bool
  | .vnone => false
  | .vbool b => b
  | .vint n => decide (n ≠ 0)
  | .vfloat q => decide (q ≠ 0)
  | .vstr s => decide (s ≠ "")
  | .vtstr _ => true
  | .vts _ => true
  | .vdt _ => true

/-! ## `src/cleaners/clean.py` -/

/-- `clean_timestamp` (clean.py:9-18): keeps datetime-like inputs as they
are (a string goes through `pd.to_datetime`, a `pd.Timestamp` through
`to_pydatetime`, a `datetime` is returned unchanged — none of these change
the instant), an unparseable plain string raises (modelled as `none`), and
any other value falls back to `datetime.now()` (the explicit `now`
parameter). -/
def clean_timestamp (now : Nat) : Value → Option Nat
  | .vtstr t => some t
  | .vts t => some t
  | .vdt t => some t
  | .vstr _ => none
  | _ => some now

/-- ASCII uppercase of one character (the fragment of Python
`str.upper` the pipeline relies on). -/
def upChar (c : Char) : Char :=
  if 97 ≤ c.toNat ∧ c.toNat ≤ 122 then Char.ofNat (c.toNat - 32) else c

/-- Python `str.upper()` on ASCII strings. -/
def pyUpper (s : String) : String :=
  ⟨s.data.map upChar⟩

/-- ASCII whitespace. -/
def isSpaceChar (c : Char) : Bool :=
  c = ' ' || c = '\t' || c = '\n' || c = '\r'

/-- Leading/trailing-whitespace stripping as done by Python `float(str)`. -/
def pyStrip (s : String) : String :=
  ⟨((s.data.dropWhile isSpaceChar).reverse.dropWhile isSpaceChar).reverse⟩

/-- Value of a digit list read in base 10. -/
def digitsVal (cs : List Char) : Nat :=
  cs.foldl (fun a c => a * 10 + (c.toNat - 48)) 0

/-- Decimal-numeral fragment of Python `float(str)`: optional sign, digits,
optional fractional part; anything else fails to parse. -/
def parseDecimal (s : String) : Option Rat :=
  let cs := (pyStrip s).toList
  let signed : Bool × List Char :=
    match cs with
    | '-' :: rest => (true, rest)
    | '+' :: rest => (false, rest)
    | _ => (false, cs)
  let ip := signed.2.takeWhile Char.isDigit
  let rest := signed.2.dropWhile Char.isDigit
  let mag : Option Rat :=
    match rest with
    | [] => if ip.isEmpty then none else some (Rat.divInt (digitsVal ip) 1)
    | '.' :: fp =>
        if fp.all Char.isDigit && (!ip.isEmpty || !fp.isEmpty) then
          some (Rat.divInt ((digitsVal ip * 10 ^ fp.length + digitsVal fp : Nat) : Int)
            ((10 ^ fp.length : Nat) : Int))
        else none
    | _ => none
  mag.map (fun q => if signed.1 then -q else q)

/-- Python `float(value)`: `none` models a `ValueError`/`TypeError`. -/
def pyFloat : Value → Option Rat
  | .vbool b => some (if b then 1 else 0)
  | .vint n => some (n : Rat)
  | .vfloat q => some q
  | .vstr s => parseDecimal s
  | .vtstr _ => none
  | .vts _ => none
  | .vdt _ => none
  | .vnone => none

/-- `safe_float` (clean.py:21-28). -/
def safe_float (value : Value) (default : Option Rat) : Option Rat :=
  if value = Value.vnone ∨ value = Value.vstr ("") then default
  else
    match pyFloat value with
    | some q => some q
    | none => default

/-- Python `int(q)` truncates toward zero. -/
def pyTrunc (q : Rat) : Int :=
  if q < 0 then Rat.ceil q else Rat.floor q

/-- `safe_int` (clean.py:31-38): converts through `float` so that a string
such as `"4.8"` yields `4`. -/
def safe_int (value : Value) (default : Option Int) : Option Int :=
  if value = Value.vnone ∨ value = Value.vstr ("") then default
  else
    match pyFloat value with
    | some q => some (pyTrunc q)
    | none => default

/-- `safe_bool` (clean.py:41-47): a `bool` passes through, a string is
uppercased and tested against the truthy set, anything else non-`None`
goes through Python truthiness, and only `None` yields the default.
(A datetime-formatted string is still a Python `str`, hence tests false.) -/
def safe_bool (value : Value) (default : Bool) : Bool :=
  match value with
  | .vbool b => b
  | .vstr s => [("Y" : String), "YES", "TRUE", "1"].contains (pyUpper s)
  | .vtstr _ => false
  | .vnone => default
  | v => truthyValue v

/-- `datetime.hour` of a minute-resolution timestamp. -/
def hourOf (t : Nat) : Nat := t / 60 % 24

/-- `datetime.isoweekday()` (Monday = 1 .. Sunday = 7) with the epoch
convention that minute 0 lies on a Monday. -/
def isoWeekday (t : Nat) : Nat := t / 1440 % 7 + 1

/-- The cleaned external-factors record produced by `clean_external_factors`. -/
structure CleanedExternal where
  timestamp : Nat
  pressure_hpa : Option Rat
  pressure_change_24h : Option Rat
  temperature : Option Rat
  humidity : Option Rat
  hour_of_day : Option Int
  day_of_week : Option Int
  weekend : Bool
  pm25 : Option Rat
  aqi : Option Int
deriving DecidableEq, Repr

/-- `clean_external_factors` (clean.py:50-71).  `now` is the ambient
`datetime.now()`; the whole call fails (raises, modelled `none`) exactly
when the timestamp value is an unparseable string. -/
def clean_external_factors (now : Nat) (record : Record) : Option CleanedExternal :=
  match clean_timestamp now (recGetD record ("timestamp") (Value.vdt now)) with
  | none => none
  | some ts => some
    { timestamp := ts
      pressure_hpa := safe_float (recGetD record ("pressure_hpa") Value.vnone) none
      pressure_change_24h := safe_float (recGetD record ("pressure_change_24h") Value.vnone) (some 0)
      temperature := safe_float (recGetD record ("temperature") Value.vnone) none
      humidity := safe_float (recGetD record ("humidity") Value.vnone) none
      hour_of_day := safe_int (recGetD record ("hour_of_day") (Value.vint (hourOf now))) (some 0)
      day_of_week := safe_int (recGetD record ("day_of_week") (Value.vint (isoWeekday now))) (some 0)
      weekend := safe_bool (recGetD record ("weekend") (Value.vbool (decide (isoWeekday now ≥ 6)))) false
      pm25 := safe_float (recGetD record ("pm25") Value.vnone) none
      aqi := safe_int (recGetD record ("aqi") Value.vnone) none }

/-- The cleaned user-tracking record produced by `clean_user_tracking`. -/
structure CleanedUser where
  timestamp : Nat
  sleep_hours : Option Rat
  breakfast_skipped : Bool
  lunch_skipped : Bool
  phone_usage : Option Int
  caffeine_count : Option Int
  steps : Option Int
  water_glasses : Option Int
  exercise : Bool
  brain_fog_score : Option Int
  reaction_time_ms : Option Rat
  verbal_memory_words : Option Int
deriving DecidableEq, Repr

/-- `clean_user_tracking` (clean.py:74-96). -/
def clean_user_tracking (now : Nat) (record : Record) : Option CleanedUser :=
  match clean_timestamp now (recGetD record ("timestamp") (Value.vdt now)) with
  | none => none
  | some ts => some
    { timestamp := ts
      sleep_hours := safe_float (recGetD record ("sleep_hours") Value.vnone) (some 8)
      breakfast_skipped := safe_bool (recGetD record ("breakfast_skipped") Value.vnone) false
      lunch_skipped := safe_bool (recGetD record ("lunch_skipped") Value.vnone) false
      phone_usage := safe_int (recGetD record ("phone_usage") Value.vnone) (some 0)
      caffeine_count := safe_int (recGetD record ("caffeine_count") Value.vnone) (some 0)
      steps := safe_int (recGetD record ("steps") Value.vnone) (some 0)
      water_glasses := safe_int (recGetD record ("water_glasses") Value.vnone) (some 0)
      exercise := safe_bool (recGetD record ("exercise") Value.vnone) false
      brain_fog_score := safe_int (recGetD record ("brain_fog_score") Value.vnone) (some 5)
      reaction_time_ms := safe_float (recGetD record ("reaction_time_ms") Value.vnone) (some 300)
      verbal_memory_words := safe_int (recGetD record ("verbal_memory_words") Value.vnone) (some 10) }

/-- Modelled from the spec: rounding a timestamp to the nearest hour with
minute ≥ 30 rounding up.  The source cleaner (`clean_timestamp`) performs
no such rounding; this definition exists only to compare the spec's claimed
behavior with the code's. -/
def specRoundToNearestHour (t : Nat) : Nat :=
  (t / 60 + (if t % 60 ≥ 30 then 1 else 0)) * 60

/-! ## `src/validators/validate.py` -/

/-- A per-field validation rule as declared in `validation_rules.yaml`
(`type`, `min`, `max`, `allow_null`; the `type` key is named `ftype` here
since the YAML key name is `type`). -/
structure FieldSpec where
  ftype : Option String
  min : Option Rat
  max : Option Rat
  allow_null : Bool
deriving DecidableEq, Repr

/-- The loaded `VALIDATION_RULES` mapping: schema name to its field rules. -/
abbrev RulesMap := List (String × List (String × FieldSpec))

/-- Association-list analogue of `dict.get`. -/
def lookupAssoc {α : Type} (l : List (String × α)) (k : String) : Option α :=
  (l.find? (fun p => p.1 == k)).map Prod.snd

/-- Numeric view of a value for Python `<`/`>` against a number; `none`
models the `TypeError` a non-numeric comparison raises. -/
def valAsNum : Value → Option Rat
  | .vbool b => some (if b then 1 else 0)
  | .vint n => some (n : Rat)
  | .vfloat q => some q
  | _ => none

/-- The validator closure built by `_build_field_validator`
(validate.py:27-51): booleans by `isinstance`, numerics by optional
range bounds with a `TypeError` treated as failure, `None` governed by
`allow_null`. -/
def fieldValidator (spec : FieldSpec) (x : Value) : Bool :=
  if spec.ftype = some ("bool") then
    match x with
    | .vnone => spec.allow_null
    | .vbool _ => true
    | _ => false
  else if x = Value.vnone then spec.allow_null
  else
    let minOk : Option Bool :=
      match spec.min with
      | none => some true
      | some m => (valAsNum x).map (fun q => decide (¬ q < m))
    match minOk with
    | none => false
    | some false => false
    | some true =>
      match spec.max with
      | none => true
      | some m =>
        match valAsNum x with
        | none => false
        | some q => decide (¬ q > m)

/-- `validate_record` (validate.py:65-83): a schema name absent from the
rules map passes everything; otherwise each declared field present in the
record is checked and failures produce error strings. -/
def validate_record (rules : RulesMap) (record : Record) (table : String) : Bool × List String :=
  match lookupAssoc rules table with
  | none => (true, [])
  | some tableSpec =>
    let errors := tableSpec.foldr (fun fs acc =>
      match recGet record fs.1 with
      | some v =>
          if fieldValidator fs.2 v then acc
          else (fs.1 ++ "=" ++ showValue v ++ " failed validation") :: acc
      | none => acc) []
    (errors.isEmpty, errors)

/-- An invalid-record entry produced by `validate_batch`. -/
structure InvalidRec where
  record : Record
  errors : List String
  table : String
deriving DecidableEq, Repr

/-- `validate_batch` (validate.py:86-103): order-preserving partition by
`validate_record`. -/
def validate_batch (rules : RulesMap) (records : List Record) (table : String) :
    List Record × List InvalidRec :=
  match records with
  | [] => ([], [])
  | r :: rest =>
    let tl := validate_batch rules rest table
    let vr := validate_record rules r table
    if vr.1 then (r :: tl.1, tl.2) else (tl.1, ⟨r, vr.2, table⟩ :: tl.2)

/-! ## `src/loaders/load.py`

The PostgreSQL store is modelled explicitly: a `persons` table (id, name)
and a `measurements` table whose rows carry an environmental and a
behavioral column group keyed by `(person_id, timestamp)`.  A failure of
the bulk write inside the `try` block is modelled by the `storeErr`
parameter (`some e` carries the store's error text `str(e)`); the
connection itself is assumed established.  Key collisions inside a single
batch are outside the modelled universe. -/

/-- The environmental column group of a `measurements` row (the columns
written by `upsert_measurement_external`). -/
structure EnvCols where
  pressure_hpa : Value
  pressure_change_24h : Value
  temperature : Value
  humidity : Value
  hour_of_day : Value
  day_of_week : Value
  weekend : Value
  pm25 : Value
  aqi : Value
  co : Value
  no : Value
  no2 : Value
  o3 : Value
  so2 : Value
  pm10 : Value
  nh3 : Value
deriving DecidableEq, Repr

/-- The behavioral column group of a `measurements` row (the columns
written by `update_measurement_user_data`). -/
structure BehCols where
  sleep_hours : Value
  phone_usage : Value
  steps : Value
  screen_time_minutes : Value
  active_energy_kcal : Value
  calories_intake : Value
  protein_g : Value
  carbs_g : Value
  fat_g : Value
  sequence_memory_score : Value
  reaction_time_ms : Value
  verbal_memory_words : Value
deriving DecidableEq, Repr

/-- One `measurements` row. -/
structure Row where
  person_id : Int
  timestamp : Value
  env : EnvCols
  beh : BehCols
deriving DecidableEq, Repr

/-- The relational store: `persons` (id, name) and `measurements` rows. -/
structure Store where
  persons : List (Int × String)
  rows : List Row
deriving DecidableEq, Repr

/-- A rejected-record entry as built by the loaders. -/
structure Reject where
  record : Record
  error : String
  table : String
deriving DecidableEq, Repr

/-- Result of one loader operation: the inserted/updated count, the
rejected list and the store after commit or rollback. -/
structure LoadOut where
  count : Nat
  rejected : List Reject
  store : Store
deriving DecidableEq, Repr

/-- `_load_all_persons_to_cache` (load.py:45-48): the name → id cache as
populated from the `persons` table at the start of each loader call. -/
def loadCache (s : Store) : List (String × Int) :=
  s.persons.map (fun p => (p.2, p.1))

/-- The integer `person_id` field of a record, when present as an integer. -/
def recPersonId (r : Record) : Option Int :=
  match recGet r ("person_id") with
  | some (.vint n) => some n
  | _ => none

/-- Python truthiness of an optional person id (`None` and `0` are falsy). -/
def truthyId : Option Int → Bool
  | none => false
  | some n => decide (n ≠ 0)

/-- Identity resolution shared by both loaders (load.py:192-195 and
291-294): take the record's own `person_id` if truthy, otherwise fall back
to the cache via the record's `person` name; a falsy outcome means the
record cannot be resolved. -/
def resolvePersonId (cache : List (String × Int)) (r : Record) : Option Int :=
  let pid0 := recPersonId r
  let pid1 :=
    if !truthyId pid0 && (recGet r ("person")).isSome then
      match recGet r ("person") with
      | some (.vstr name) => lookupAssoc cache name
      | _ => none
    else pid0
  if truthyId pid1 then pid1 else none

/-- The identity-resolution rejection message (load.py:200). -/
def resolveErrMsg (r : Record) : String :=
  "Could not resolve person_id for record: " ++
    (match recGet r ("person") with
     | some v => showValue v
     | none => "unknown")

/-- The in-place mutation `record['person_id'] = person_id` applied to a
record that resolves; an unresolvable record is left unchanged. -/
def resolveMutate (cache : List (String × Int)) (r : Record) : Record :=
  match resolvePersonId cache r with
  | some pid => setField r ("person_id") (Value.vint pid)
  | none => r

/-- Output of the identity-resolution loop over a batch: the resolved
records (with `person_id` set), the rejections in input order, and the
batch as mutated in place. -/
structure ResolveOut where
  valid : List Record
  rejects : List Reject
  mutated : List Record
deriving DecidableEq, Repr

/-- The identity-resolution loop over a batch (load.py:191-206 and
290-305). -/
def resolvePhase (cache : List (String × Int)) : List Record → ResolveOut
  | [] => ⟨[], [], []⟩
  | r :: rest =>
    let tl := resolvePhase cache rest
    match resolvePersonId cache r with
    | some pid =>
      let r2 := setField r ("person_id") (Value.vint pid)
      ⟨r2 :: tl.valid, tl.rejects, r2 :: tl.mutated⟩
    | none =>
      ⟨tl.valid, ⟨r, resolveErrMsg r, "measurements"⟩ :: tl.rejects, r :: tl.mutated⟩

/-- The environmental values tuple built for one record
(load.py:209-231): missing fields insert as NULL. -/
def envOfRecord (r : Record) : EnvCols :=
  { pressure_hpa := recGetD r ("pressure_hpa") Value.vnone
    pressure_change_24h := recGetD r ("pressure_change_24h") Value.vnone
    temperature := recGetD r ("temperature") Value.vnone
    humidity := recGetD r ("humidity") Value.vnone
    hour_of_day := recGetD r ("hour_of_day") Value.vnone
    day_of_week := recGetD r ("day_of_week") Value.vnone
    weekend := recGetD r ("weekend") Value.vnone
    pm25 := recGetD r ("pm25") Value.vnone
    aqi := recGetD r ("aqi") Value.vnone
    co := recGetD r ("co") Value.vnone
    no := recGetD r ("no") Value.vnone
    no2 := recGetD r ("no2") Value.vnone
    o3 := recGetD r ("o3") Value.vnone
    so2 := recGetD r ("so2") Value.vnone
    pm10 := recGetD r ("pm10") Value.vnone
    nh3 := recGetD r ("nh3") Value.vnone }

/-- A freshly inserted row has all behavioral columns NULL. -/
def behNull : BehCols :=
  { sleep_hours := Value.vnone, phone_usage := Value.vnone, steps := Value.vnone
    screen_time_minutes := Value.vnone, active_energy_kcal := Value.vnone
    calories_intake := Value.vnone, protein_g := Value.vnone, carbs_g := Value.vnone
    fat_g := Value.vnone, sequence_memory_score := Value.vnone
    reaction_time_ms := Value.vnone, verbal_memory_words := Value.vnone }

/-- Whether a row has the given `(person_id, timestamp)` key. -/
def keyMatch (pid : Int) (ts : Value) (row : Row) : Bool :=
  decide (row.person_id = pid ∧ row.timestamp = ts)

/-- `INSERT ... ON CONFLICT (person_id, timestamp) DO UPDATE` for one
values tuple (load.py:233-257): an existing row keeps its behavioral
columns and takes the new environmental columns; otherwise a new row is
appended with NULL behavioral columns. -/
def upsertRow (rows : List Row) (pid : Int) (ts : Value) (env : EnvCols) : List Row :=
  if rows.any (keyMatch pid ts) then
    rows.map (fun row => if keyMatch pid ts row then { row with env := env } else row)
  else
    rows ++ [{ person_id := pid, timestamp := ts, env := env, beh := behNull }]

/-- The bulk upsert over the resolved batch, one tuple at a time in batch
order. -/
def applyUpserts (rows : List Row) : List Record → List Row
  | [] => rows
  | r :: rest =>
    applyUpserts
      (upsertRow rows ((recPersonId r).getD 0) (recGetD r ("timestamp") Value.vnone)
        (envOfRecord r))
      rest

/-- `upsert_measurement_external` (load.py:176-272).  `storeErr = some e`
models the bulk write raising a store-level error with text `e`: the
transaction is rolled back and every record of the (mutated) batch is
appended to the rejected list with that text. -/
def upsert_measurement_external (storeErr : Option String) (s : Store)
    (records : List Record) : LoadOut :=
  if records.isEmpty then ⟨0, [], s⟩
  else
    let ro := resolvePhase (loadCache s) records
    match storeErr with
    | none =>
        ⟨ro.valid.length, ro.rejects, { s with rows := applyUpserts s.rows ro.valid }⟩
    | some e =>
        ⟨0, ro.rejects ++ ro.mutated.map (fun r => ⟨r, e, "measurements"⟩), s⟩

/-- `_get_existing_measurements` (load.py:149-173): the `(person_id,
timestamp)` pairs of the given records (those with truthy components)
that already have a `measurements` row. -/
def existingPairs (rows : List Row) (records : List Record) : List (Int × Value) :=
  let pairs := records.filterMap (fun r =>
    match recGet r ("person_id"), recGet r ("timestamp") with
    | some (.vint n), some ts =>
        if truthyValue (Value.vint n) && truthyValue ts then some (n, ts) else none
    | _, _ => none)
  pairs.filter (fun p => rows.any (keyMatch p.1 p.2))

/-- The `person_id` a resolved record carries (`record['person_id']`). -/
def updPid (r : Record) : Int :=
  match recGet r ("person_id") with
  | some (.vint n) => n
  | _ => 0

/-- The `(person_id, timestamp) not in existing` membership test of the
ordering check (load.py:315). -/
def isInExisting (existing : List (Int × Value)) (r : Record) : Bool :=
  match recGet r ("timestamp") with
  | some t => existing.any (fun p => decide (p.1 = updPid r ∧ p.2 = t))
  | none => false

/-- `record.get('person', f'ID:{person_id}')` (load.py:313). -/
def orderingName (r : Record) (pid : Int) : String :=
  match recGet r ("person") with
  | some v => showValue v
  | none => "ID:" ++ toString pid

/-- Rendering of the timestamp inside the ordering rejection message. -/
def tsDisplay : Option Value → String
  | some v => showValue v
  | none => "None"

/-- The ordering rejection message (load.py:318). -/
def orderingMsg (name : String) (ts : Option Value) : String :=
  "No measurement row exists for " ++ name ++ " at " ++ tsDisplay ts ++
    ". External factors must be loaded first."

/-- The rejection entry built for a record that fails the ordering check. -/
def orderingReject (r : Record) : Reject :=
  ⟨r, orderingMsg (orderingName r (updPid r)) (recGet r ("timestamp")), "measurements"⟩

/-- Output of the ordering-check loop. -/
structure OrderOut where
  valid : List Record
  rejects : List Reject
deriving DecidableEq, Repr

/-- The ordering-check loop (load.py:309-323): records whose key is not
among the existing pairs are rejected, the rest survive. -/
def orderingPhase (existing : List (Int × Value)) : List Record → OrderOut
  | [] => ⟨[], []⟩
  | r :: rest =>
    let tl := orderingPhase existing rest
    if isInExisting existing r then ⟨r :: tl.valid, tl.rejects⟩
    else ⟨tl.valid, orderingReject r :: tl.rejects⟩

/-- The behavioral values tuple built for one record (load.py:345-363). -/
def behOfRecord (r : Record) : BehCols :=
  { sleep_hours := recGetD r ("sleep_hours") Value.vnone
    phone_usage := recGetD r ("phone_usage") Value.vnone
    steps := recGetD r ("steps") Value.vnone
    screen_time_minutes := recGetD r ("screen_time_minutes") Value.vnone
    active_energy_kcal := recGetD r ("active_energy_kcal") Value.vnone
    calories_intake := recGetD r ("calories_intake") Value.vnone
    protein_g := recGetD r ("protein_g") Value.vnone
    carbs_g := recGetD r ("carbs_g") Value.vnone
    fat_g := recGetD r ("fat_g") Value.vnone
    sequence_memory_score := recGetD r ("sequence_memory_score") Value.vnone
    reaction_time_ms := recGetD r ("reaction_time_ms") Value.vnone
    verbal_memory_words := recGetD r ("verbal_memory_words") Value.vnone }

/-- Whether a staged record joins with a store row on `(person_id,
timestamp)` (the UPDATE ... FROM join of load.py:371-387). -/
def recMatchesRow (row : Row) (r : Record) : Bool :=
  decide (updPid r = row.person_id) && decide (recGet r ("timestamp") = some row.timestamp)

/-- The bulk `UPDATE measurements ... FROM temp_user_updates` join
(load.py:371-389): every store row joined by some staged record takes
that record's behavioral columns (first staged match chosen), and the
returned count is `cur.rowcount`, the number of store rows matched. -/
def applyUpdates (rows : List Row) (valids : List Record) : List Row × Nat :=
  let newRows := rows.map (fun row =>
    match valids.find? (recMatchesRow row) with
    | some r => { row with beh := behOfRecord r }
    | none => row)
  (newRows, (rows.filter (fun row => valids.any (recMatchesRow row))).length)

/-- `update_measurement_user_data` (load.py:275-400).  `storeErr = some e`
models the bulk write raising: the transaction is rolled back and — unlike
the upsert path — nothing is added to the rejected list, which keeps only
the identity and ordering rejections accumulated before the write. -/
def update_measurement_user_data (storeErr : Option String) (s : Store)
    (records : List Record) : LoadOut :=
  if records.isEmpty then ⟨0, [], s⟩
  else
    let ro := resolvePhase (loadCache s) records
    let op := orderingPhase (existingPairs s.rows ro.valid) ro.valid
    match storeErr with
    | none =>
        let upd := applyUpdates s.rows op.valid
        ⟨upd.2, ro.rejects ++ op.rejects, { s with rows := upd.1 }⟩
    | some _ =>
        ⟨0, ro.rejects ++ op.rejects, s⟩

/-! ## Auxiliary predicates and concrete fixtures -/

/-- Values that `clean_timestamp` handles without consulting the clock:
strings (parsed or raising), pandas timestamps and native datetimes. -/
def tsShaped : Value → Bool
  | .vstr _ => true
  | .vtstr _ => true
  | .vts _ => true
  | .vdt _ => true
  | _ => false

/-- The `measurements` primary-key invariant: no two rows share a
`(person_id, timestamp)` key. -/
def keysNodup (rows : List Row) : Prop :=
  rows.Pairwise (fun a b => ¬(a.person_id = b.person_id ∧ a.timestamp = b.timestamp))

/-- Row correspondence used to state that an operation neither inserts nor
deletes rows and leaves every environmental column group unchanged. -/
def envPreserved (a b : Row) : Prop :=
  a.person_id = b.person_id ∧ a.timestamp = b.timestamp ∧ a.env = b.env

/-- An all-NULL environmental column group. -/
def envNull : EnvCols := envOfRecord []

/-- Fixture: a store knowing only the subject Alice (id 1), with no
measurement rows. -/
def storeAlice : Store := ⟨[(1, "Alice")], []⟩

/-- Fixture: a store knowing Alice (id 1) with one measurement row at
time 60. -/
def storeAliceRow : Store :=
  ⟨[(1, "Alice")], [{ person_id := 1, timestamp := Value.vdt 60, env := envNull, beh := behNull }]⟩

/-- Fixture: an environmental record naming the unknown subject Bob. -/
def recBob : Record := [("person", Value.vstr "Bob"), ("timestamp", Value.vdt 0)]

/-- Fixture: a behavioral record for Alice at time 60. -/
def recAliceUser : Record :=
  [("person", Value.vstr "Alice"), ("timestamp", Value.vdt 60), ("sleep_hours", Value.vfloat 7)]

/-- Fixture: an environmental record for Alice at time 60. -/
def recAliceEnv : Record :=
  [("person", Value.vstr "Alice"), ("timestamp", Value.vdt 60), ("temperature", Value.vfloat 20)]

/-- Fixture: a raw record whose own calendar fields contradict its
timestamp (time 180 is 03:00 on the epoch Monday, but the record says
hour 17). -/
def recConflicting : Record :=
  [("timestamp", Value.vdt 180), ("hour_of_day", Value.vint 17)]

/-- Fixture: a raw record carrying a timestamp and all three calendar
fields. -/
def recConflictingFull : Record :=
  [("timestamp", Value.vdt 180), ("hour_of_day", Value.vint 17),
   ("day_of_week", Value.vint 2), ("weekend", Value.vbool true)]

/-- Fixture: a rules map declaring rules for the `measurements` schema
only. -/
def demoRules : RulesMap :=
  [("measurements",
    [("pressure_hpa", { ftype := none, min := some 800, max := some 1100, allow_null := true }),
     ("weekend", { ftype := some ("bool"), min := none, max := none, allow_null := false })])]

/-! ## Helper lemmas about records -/

theorem find?_filter_ne (r : Record) (k k' : String) (h : k' ≠ k) :
    (r.filter (fun p => p.1 ≠ k)).find? (fun p => p.1 == k') =
      r.find? (fun p => p.1 == k') := by
  induction r with
  | nil => rfl
  | cons a t ih =>
    rw [List.filter_cons]
    by_cases hk : a.1 = k
    · have hpa : (a.1 == k') = false := beq_eq_false_iff_ne.mpr (by rw [hk]; exact Ne.symm h)
      rw [if_neg (by simp [hk]), List.find?_cons, hpa]
      exact ih
    · rw [if_pos (by simp [hk]), List.find?_cons, List.find?_cons]
      by_cases hk' : a.1 = k'
      · have hpa : (a.1 == k') = true := beq_iff_eq.mpr hk'
        rw [hpa]
      · have hpa : (a.1 == k') = false := beq_eq_false_iff_ne.mpr hk'
        rw [hpa]
        exact ih

theorem recGet_setField_self (r : Record) (k : String) (v : Value) :
    recGet (setField r k v) k = some v := by
  simp [recGet, setField, List.find?_cons]

theorem recGet_setField_ne (r : Record) (k k' : String) (v : Value) (h : k' ≠ k) :
    recGet (setField r k v) k' = recGet r k' := by
  have h1 : ((k, v).1 == k') = false := by
    simp
    exact Ne.symm h
  unfold recGet setField
  rw [List.find?_cons]
  simp only [h1]
  rw [find?_filter_ne r k k' h]

theorem recGetD_of_get (r : Record) (k : String) (v d : Value)
    (h : recGet r k = some v) : recGetD r k d = v := by
  simp [recGetD, h]

theorem recGetD_of_none (r : Record) (k : String) (d : Value)
    (h : recGet r k = none) : recGetD r k d = d := by
  simp [recGetD, h]

/-! ## Helper lemmas about numeric conversion -/

theorem pyTrunc_intCast (n : Int) : pyTrunc ((n : Int) : Rat) = n := by
  unfold pyTrunc
  by_cases h : ((n : Int) : Rat) < 0
  · rw [if_pos h]
    simp [Rat.ceil, Rat.num_intCast, Rat.den_intCast]
  · rw [if_neg h]
    simp [Rat.floor, Rat.num_intCast, Rat.den_intCast]

theorem safe_int_vint (n : Int) (d : Option Int) :
    safe_int (Value.vint n) d = some n := by
  simp [safe_int, pyFloat, pyTrunc_intCast]

theorem clean_timestamp_indep (n₁ n₂ : Nat) (v : Value) (h : tsShaped v = true) :
    clean_timestamp n₁ v = clean_timestamp n₂ v := by
  cases v <;> simp_all [tsShaped, clean_timestamp]

/-! ## Claim C2: timestamp rounding -/

/-- Claim C2, counterexample.  The cleaner does not round timestamps: the
input at minute 871 (14:31) is returned unchanged rather than rounded to
900 (15:00), and the inputs 14:31 and 14:40 — inside the same claimed
rounding window — do not collide on one key. -/
theorem clean_timestamp_no_rounding_cex :
    clean_timestamp 0 (Value.vdt 871) ≠ some (specRoundToNearestHour 871) ∧
    clean_timestamp 0 (Value.vdt 871) ≠ clean_timestamp 0 (Value.vdt 880) := by
  constructor
  · decide
  · decide

/-- Claim C2, amended: `clean_timestamp` only converts the representation
of a datetime-like input, returning the parsed instant unchanged with no
rounding to the hour; equal instants map to equal keys, but instants in
the same half-hour window do not collide. -/
theorem clean_timestamp_passthrough (now t : Nat) :
    clean_timestamp now (Value.vtstr t) = some t ∧
    clean_timestamp now (Value.vts t) = some t ∧
    clean_timestamp now (Value.vdt t) = some t :=
  ⟨rfl, rfl, rfl⟩

/-! ## Claim C5: derived calendar fields -/

/-- Claim C5, counterexample.  `clean_external_factors` trusts a raw
`hour_of_day` field: for a record whose timestamp 180 has hour 3 but whose
raw `hour_of_day` is 17, the cleaned record carries 17, not the hour of
the normalized timestamp. -/
theorem clean_external_calendar_cex :
    (clean_external_factors 0 recConflicting).map CleanedExternal.hour_of_day =
      some (some 17) ∧
    (clean_external_factors 0 recConflicting).map CleanedExternal.timestamp = some 180 ∧
    hourOf 180 = 3 ∧ (17 : Int) ≠ 3 := by
  refine ⟨by decide, by decide, by decide, by decide⟩

/-- Claim C5, amended: the cleaned `hour_of_day`, `day_of_week` and
`weekend` fields are taken (coerced) from the raw record whenever the raw
record carries them, and default to the current wall-clock values when
absent; they are not derived from the record's normalized timestamp. -/
theorem clean_external_calendar_from_raw (now : Nat) (record : Record)
    (c : CleanedExternal) (h : clean_external_factors now record = some c) :
    (∀ v, recGet record ("hour_of_day") = some v → c.hour_of_day = safe_int v (some 0)) ∧
    (recGet record ("hour_of_day") = none → c.hour_of_day = some ((hourOf now : Nat) : Int)) ∧
    (∀ v, recGet record ("day_of_week") = some v → c.day_of_week = safe_int v (some 0)) ∧
    (recGet record ("day_of_week") = none → c.day_of_week = some ((isoWeekday now : Nat) : Int)) ∧
    (∀ v, recGet record ("weekend") = some v → c.weekend = safe_bool v false) ∧
    (recGet record ("weekend") = none → c.weekend = decide (isoWeekday now ≥ 6)) := by
  unfold clean_external_factors at h
  cases hts : clean_timestamp now (recGetD record ("timestamp") (Value.vdt now)) with
  | none => rw [hts] at h; exact absurd h (by simp)
  | some ts =>
    rw [hts] at h
    have hc : c = _ := (Option.some.inj h).symm
    refine ⟨?_, ?_, ?_, ?_, ?_, ?_⟩
    · intro v hv
      rw [hc]
      show safe_int (recGetD record ("hour_of_day") (Value.vint (hourOf now))) (some 0) = _
      rw [recGetD_of_get record ("hour_of_day") v _ hv]
    · intro hv
      rw [hc]
      show safe_int (recGetD record ("hour_of_day") (Value.vint (hourOf now))) (some 0) = _
      rw [recGetD_of_none record ("hour_of_day") _ hv, safe_int_vint]
    · intro v hv
      rw [hc]
      show safe_int (recGetD record ("day_of_week") (Value.vint (isoWeekday now))) (some 0) = _
      rw [recGetD_of_get record ("day_of_week") v _ hv]
    · intro hv
      rw [hc]
      show safe_int (recGetD record ("day_of_week") (Value.vint (isoWeekday now))) (some 0) = _
      rw [recGetD_of_none record ("day_of_week") _ hv, safe_int_vint]
    · intro v hv
      rw [hc]
      show safe_bool (recGetD record ("weekend") (Value.vbool (decide (isoWeekday now ≥ 6)))) false = _
      rw [recGetD_of_get record ("weekend") v _ hv]
    · intro hv
      rw [hc]
      show safe_bool (recGetD record ("weekend") (Value.vbool (decide (isoWeekday now ≥ 6)))) false = _
      rw [recGetD_of_none record ("weekend") _ hv]
      rfl

/-- Claim C5, amended: witness at a concrete input. -/
theorem clean_external_calendar_from_raw_witness :
    ∃ c, clean_external_factors 0 recConflicting = some c ∧
      c.hour_of_day = safe_int (Value.vint 17) (some 0) ∧
      c.day_of_week = some ((isoWeekday 0 : Nat) : Int) := by
  refine ⟨_, rfl, ?_, ?_⟩
  · exact (clean_external_calendar_from_raw 0 recConflicting _ rfl).1 (Value.vint 17) (by decide)
  · exact (clean_external_calendar_from_raw 0 recConflicting _ rfl).2.2.2.1 (by decide)

/-! ## Claim C6: safe coercions -/

/-- Claim C6, counterexample.  `safe_bool` does not return the supplied
default on empty input: the empty string with default `True` yields
`False`, because the string branch ignores the default entirely. -/
theorem safe_bool_empty_default_cex :
    ¬ (safe_bool (Value.vstr ("")) true = true) := by
  decide

/-- Claim C6, amended: `safe_float`, `safe_int` and `safe_bool` are total
(never raise); `safe_float` and `safe_int` return the supplied default on
`None`, empty-string or unparseable input; `safe_bool` returns the default
only on `None` and maps every string — empty or malformed included — to
membership in the truthy set {Y, YES, TRUE, 1} regardless of the default;
and all the listed examples hold. -/
theorem safe_coercions_defaults :
    (∀ d, safe_float Value.vnone d = d) ∧
    (∀ d, safe_float (Value.vstr ("")) d = d) ∧
    (∀ s d, pyFloat (Value.vstr s) = none → safe_float (Value.vstr s) d = d) ∧
    (∀ d, safe_int Value.vnone d = d) ∧
    (∀ d, safe_int (Value.vstr ("")) d = d) ∧
    (∀ s d, pyFloat (Value.vstr s) = none → safe_int (Value.vstr s) d = d) ∧
    (∀ d, safe_bool Value.vnone d = d) ∧
    (∀ s d, safe_bool (Value.vstr s) d = [("Y" : String), "YES", "TRUE", "1"].contains (pyUpper s)) ∧
    safe_int (Value.vstr ("4.8")) (some 0) = some 4 ∧
    safe_int (Value.vstr ("")) (some 7) = some 7 ∧
    safe_int (Value.vstr ("abc")) (some 2) = some 2 ∧
    safe_bool (Value.vstr ("YES")) false = true ∧
    safe_bool (Value.vstr ("n")) true = false := by
  refine ⟨fun d => rfl, fun d => by simp [safe_float], ?_, fun d => rfl,
    fun d => by simp [safe_int], ?_, fun d => rfl, fun s d => rfl,
    by decide, by decide, by decide, by decide, by decide⟩
  · intro s d hp
    by_cases hs : s = ""
    · subst hs
      simp [safe_float]
    · simp only [safe_float]
      rw [if_neg (by simp [hs]), hp]
  · intro s d hp
    by_cases hs : s = ""
    · subst hs
      simp [safe_int]
    · simp only [safe_int]
      rw [if_neg (by simp [hs]), hp]

/-- Claim C6, witness: the unparseable-string hypothesis discharged at a
concrete input. -/
theorem safe_coercions_defaults_witness :
    pyFloat (Value.vstr ("1.2.3")) = none ∧
    safe_float (Value.vstr ("1.2.3")) (some 9) = some 9 := by
  refine ⟨by decide, safe_coercions_defaults.2.2.1 ("1.2.3") (some 9) (by decide)⟩

/-! ## Claim C7: purity of the cleaners -/

/-- Claim C7, counterexample.  The cleaners are not pure functions of the
record: on a record with no timestamp field, `clean_user_tracking`
evaluated at two different wall-clock instants yields different cleaned
records. -/
theorem clean_user_wallclock_cex :
    clean_user_tracking 0 [] ≠ clean_user_tracking 60 [] := by
  decide

/-- Claim C7, amended: the cleaners are deterministic in the record —
independent of the wall clock — as soon as the record itself carries a
datetime-shaped `timestamp` (and, for the external cleaner, its own
`hour_of_day`, `day_of_week` and `weekend` fields); otherwise the current
time enters through the defaults. -/
theorem cleaners_deterministic_given_fields (n₁ n₂ : Nat) (record : Record) :
    (∀ v, recGet record ("timestamp") = some v → tsShaped v = true →
      clean_user_tracking n₁ record = clean_user_tracking n₂ record) ∧
    (∀ v, recGet record ("timestamp") = some v → tsShaped v = true →
      (recGet record ("hour_of_day")).isSome = true →
      (recGet record ("day_of_week")).isSome = true →
      (recGet record ("weekend")).isSome = true →
      clean_external_factors n₁ record = clean_external_factors n₂ record) := by
  constructor
  · intro v hv hs
    unfold clean_user_tracking
    simp only [recGetD, hv, Option.getD_some]
    rw [clean_timestamp_indep n₁ n₂ v hs]
  · intro v hv hs h1 h2 h3
    obtain ⟨w1, hw1⟩ := Option.isSome_iff_exists.mp h1
    obtain ⟨w2, hw2⟩ := Option.isSome_iff_exists.mp h2
    obtain ⟨w3, hw3⟩ := Option.isSome_iff_exists.mp h3
    unfold clean_external_factors
    simp only [recGetD, hv, hw1, hw2, hw3, Option.getD_some]
    rw [clean_timestamp_indep n₁ n₂ v hs]

/-- Claim C7, witness: determinism at two concrete clock readings on a
record carrying a timestamp and its calendar fields. -/
theorem cleaners_deterministic_witness :
    clean_user_tracking 0 recAliceUser = clean_user_tracking 60 recAliceUser ∧
    clean_external_factors 0 recConflictingFull = clean_external_factors 60 recConflictingFull := by
  constructor
  · exact (cleaners_deterministic_given_fields 0 60 recAliceUser).1 (Value.vdt 60)
      (by decide) (by decide)
  · exact (cleaners_deterministic_given_fields 0 60 recConflictingFull).2 (Value.vdt 180)
      (by decide) (by decide) (by decide) (by decide) (by decide)

/-! ## Claim C8: fail-open validation -/

/-- Claim C8: a schema name with no declared validation rules validates
every record as `(True, [])`, and `validate_batch` returns the whole batch
as valid, in input order, with an empty invalid partition. -/
theorem validate_unknown_schema_fail_open (rules : RulesMap) (records : List Record)
    (table : String) (record : Record) (h : lookupAssoc rules table = none) :
    validate_record rules record table = (true, []) ∧
    validate_batch rules records table = (records, []) := by
  have h1 : ∀ r : Record, validate_record rules r table = (true, []) := by
    intro r
    simp [validate_record, h]
  refine ⟨h1 record, ?_⟩
  induction records with
  | nil => rfl
  | cons r rest ih =>
    simp [validate_batch, ih, h1 r]

/-- Claim C8, witness: a rules map declaring only the `measurements`
schema treats the unknown schema name as rule-free. -/
theorem validate_unknown_schema_witness :
    lookupAssoc demoRules ("mystery_table") = none ∧
    validate_batch demoRules [recBob, recAliceUser] ("mystery_table") =
      ([recBob, recAliceUser], []) := by
  refine ⟨by decide, (validate_unknown_schema_fail_open demoRules [recBob, recAliceUser]
    ("mystery_table") recBob (by decide)).2⟩

/-! ## Helper lemmas about the loaders -/

theorem resolvePhase_valid_mem (cache : List (String × Int)) (records : List Record)
    (r : Record) (pid : Int) (hr : r ∈ records)
    (hres : resolvePersonId cache r = some pid) :
    setField r ("person_id") (Value.vint pid) ∈ (resolvePhase cache records).valid := by
  induction records with
  | nil => cases hr
  | cons a rest ih =>
    cases hr with
    | head => simp [resolvePhase, hres]
    | tail _ hmem =>
      cases ha : resolvePersonId cache a with
      | some p =>
        simp only [resolvePhase, ha]
        exact List.mem_cons_of_mem _ (ih hmem)
      | none =>
        simp only [resolvePhase, ha]
        exact ih hmem

theorem resolvePhase_rejects_mem (cache : List (String × Int)) (records : List Record)
    (r : Record) (hr : r ∈ records) (hres : resolvePersonId cache r = none) :
    (⟨r, resolveErrMsg r, "measurements"⟩ : Reject) ∈ (resolvePhase cache records).rejects := by
  induction records with
  | nil => cases hr
  | cons a rest ih =>
    cases hr with
    | head => simp [resolvePhase, hres]
    | tail _ hmem =>
      cases ha : resolvePersonId cache a with
      | some p =>
        simp only [resolvePhase, ha]
        exact ih hmem
      | none =>
        simp only [resolvePhase, ha]
        exact List.mem_cons_of_mem _ (ih hmem)

theorem resolvePhase_mutated_eq (cache : List (String × Int)) (records : List Record) :
    (resolvePhase cache records).mutated = records.map (resolveMutate cache) := by
  induction records with
  | nil => rfl
  | cons a rest ih =>
    cases ha : resolvePersonId cache a with
    | some p => simp [resolvePhase, ha, resolveMutate, ih]
    | none => simp [resolvePhase, ha, resolveMutate, ih]

theorem orderingPhase_rejects_mem (existing : List (Int × Value)) (valids : List Record)
    (r : Record) (hr : r ∈ valids) (hIn : isInExisting existing r = false) :
    orderingReject r ∈ (orderingPhase existing valids).rejects := by
  induction valids with
  | nil => cases hr
  | cons a rest ih =>
    cases hr with
    | head => simp [orderingPhase, hIn]
    | tail _ hmem =>
      by_cases ha : isInExisting existing a
      · simp only [orderingPhase, ha, if_true]
        exact ih hmem
      · simp only [orderingPhase, ha, if_false]
        exact List.mem_cons_of_mem _ (ih hmem)

theorem existingPairs_sound (rows : List Row) (records : List Record)
    (pid : Int) (t : Value) (h : (pid, t) ∈ existingPairs rows records) :
    ∃ row ∈ rows, row.person_id = pid ∧ row.timestamp = t := by
  unfold existingPairs at h
  have h2 := List.of_mem_filter h
  simp only [List.any_eq_true] at h2
  obtain ⟨row, hrow, hkey⟩ := h2
  exact ⟨row, hrow, of_decide_eq_true hkey⟩

theorem update_rejected_eq (storeErr : Option String) (s : Store)
    (records : List Record) (hne : records ≠ []) :
    (update_measurement_user_data storeErr s records).rejected =
      (resolvePhase (loadCache s) records).rejects ++
      (orderingPhase (existingPairs s.rows (resolvePhase (loadCache s) records).valid)
        (resolvePhase (loadCache s) records).valid).rejects := by
  unfold update_measurement_user_data
  rw [if_neg (by simpa using hne)]
  cases storeErr <;> rfl

theorem envPreserved_refl_list (rows : List Row) : List.Forall₂ envPreserved rows rows := by
  induction rows with
  | nil => exact List.Forall₂.nil
  | cons a t ih => exact List.Forall₂.cons ⟨rfl, rfl, rfl⟩ ih

theorem applyUpdates_envPreserved (rows : List Row) (valids : List Record) :
    List.Forall₂ envPreserved rows (applyUpdates rows valids).1 := by
  unfold applyUpdates
  induction rows with
  | nil => exact List.Forall₂.nil
  | cons a t ih =>
    simp only [List.map_cons]
    refine List.Forall₂.cons ?_ ih
    cases hf : valids.find? (recMatchesRow a) with
    | some rr => exact ⟨rfl, rfl, rfl⟩
    | none => exact ⟨rfl, rfl, rfl⟩

theorem update_store_envPreserved (storeErr : Option String) (s : Store)
    (records : List Record) :
    List.Forall₂ envPreserved s.rows
      (update_measurement_user_data storeErr s records).store.rows := by
  unfold update_measurement_user_data
  by_cases hne : records.isEmpty
  · rw [if_pos hne]
    exact envPreserved_refl_list s.rows
  · rw [if_neg hne]
    cases storeErr with
    | none => exact applyUpdates_envPreserved s.rows _
    | some e => exact envPreserved_refl_list s.rows

theorem append_loaded_first (x : String) :
    x ++ ". External factors must be loaded first." =
      (x ++ ". External factors ") ++ "must be loaded first" ++ "." := by
  rw [String.append_assoc x (". External factors ") ("must be loaded first"),
    String.append_assoc x (". External factors " ++ "must be loaded first") (".")]
  rfl

/-! ## Claim C1: ordering invariant of the behavioral flow -/

/-- Claim C1: in `update_measurement_user_data`, every record whose
resolved `(person_id, timestamp)` pair has no existing measurements row is
rejected with a reason containing "must be loaded first", and — whatever
the batch and whether or not the write fails — the operation never inserts
a measurements row: the store keeps exactly its rows, keys and
environmental columns, only behavioral columns of existing rows change. -/
theorem update_user_ordering_and_no_insert (storeErr : Option String) (s : Store)
    (records : List Record) :
    (∀ r pid, r ∈ records → resolvePersonId (loadCache s) r = some pid →
      (∀ row ∈ s.rows, ¬ (row.person_id = pid ∧ some row.timestamp = recGet r ("timestamp"))) →
      ∃ rej ∈ (update_measurement_user_data storeErr s records).rejected,
        rej.record = setField r ("person_id") (Value.vint pid) ∧
        ∃ a b, rej.error = a ++ "must be loaded first" ++ b) ∧
    List.Forall₂ envPreserved s.rows
      (update_measurement_user_data storeErr s records).store.rows := by
  refine ⟨?_, update_store_envPreserved storeErr s records⟩
  intro r pid hr hres hmiss
  have hne : records ≠ [] := by
    rintro rfl
    cases hr
  have hvalid : setField r ("person_id") (Value.vint pid) ∈
      (resolvePhase (loadCache s) records).valid :=
    resolvePhase_valid_mem _ _ _ _ hr hres
  have hupd : updPid (setField r ("person_id") (Value.vint pid)) = pid := by
    simp [updPid, recGet_setField_self]
  have hts : recGet (setField r ("person_id") (Value.vint pid)) ("timestamp") =
      recGet r ("timestamp") :=
    recGet_setField_ne r _ _ _ (by decide)
  have hIn : isInExisting
      (existingPairs s.rows (resolvePhase (loadCache s) records).valid)
      (setField r ("person_id") (Value.vint pid)) = false := by
    unfold isInExisting
    rw [hts]
    cases hget : recGet r ("timestamp") with
    | none => rfl
    | some t =>
      rw [List.any_eq_false]
      intro p hp
      intro hdec
      obtain ⟨h1, h2⟩ := of_decide_eq_true hdec
      have hpair : (p.1, p.2) ∈
          existingPairs s.rows (resolvePhase (loadCache s) records).valid := by
        rwa [show (p.1, p.2) = p from rfl]
      obtain ⟨row, hrow, hpid, hts2⟩ := existingPairs_sound _ _ p.1 p.2 hpair
      refine hmiss row hrow ⟨?_, ?_⟩
      · rw [hpid, h1, hupd]
      · rw [hts2, h2, hget]
  refine ⟨orderingReject (setField r ("person_id") (Value.vint pid)), ?_, rfl, ?_⟩
  · rw [update_rejected_eq storeErr s records hne]
    exact List.mem_append_right _ (orderingPhase_rejects_mem _ _ _ hvalid hIn)
  · refine ⟨("No measurement row exists for " ++
        orderingName (setField r ("person_id") (Value.vint pid))
          (updPid (setField r ("person_id") (Value.vint pid))) ++ " at " ++
        tsDisplay (recGet (setField r ("person_id") (Value.vint pid)) ("timestamp"))) ++
        ". External factors ", ".", ?_⟩
    exact append_loaded_first _

/-- Claim C1, witness: a behavioral record for a known subject with no
prior environmental row is rejected with the ordering reason, and the
empty store stays empty. -/
theorem update_user_ordering_witness :
    (∃ rej ∈ (update_measurement_user_data none storeAlice [recAliceUser]).rejected,
      rej.record = setField recAliceUser ("person_id") (Value.vint 1) ∧
      ∃ a b, rej.error = a ++ "must be loaded first" ++ b) ∧
    List.Forall₂ envPreserved storeAlice.rows
      (update_measurement_user_data none storeAlice [recAliceUser]).store.rows := by
  have h := update_user_ordering_and_no_insert none storeAlice [recAliceUser]
  exact ⟨h.1 recAliceUser 1 (by decide) (by decide) (by decide), h.2⟩

theorem upsert_err_store (e : String) (s : Store) (records : List Record) :
    (upsert_measurement_external (some e) s records).store = s := by
  unfold upsert_measurement_external
  by_cases h : records.isEmpty
  · rw [if_pos h]
  · rw [if_neg h]

theorem upsert_err_count (e : String) (s : Store) (records : List Record) :
    (upsert_measurement_external (some e) s records).count = 0 := by
  unfold upsert_measurement_external
  by_cases h : records.isEmpty
  · rw [if_pos h]
  · rw [if_neg h]

theorem upsert_err_rejected (e : String) (s : Store) (records : List Record)
    (hne : records ≠ []) :
    (upsert_measurement_external (some e) s records).rejected =
      (resolvePhase (loadCache s) records).rejects ++
        (records.map (resolveMutate (loadCache s))).map
          (fun r2 => (⟨r2, e, "measurements"⟩ : Reject)) := by
  unfold upsert_measurement_external
  rw [if_neg (by simpa using hne)]
  show (resolvePhase (loadCache s) records).rejects ++
      (resolvePhase (loadCache s) records).mutated.map
        (fun r2 => (⟨r2, e, "measurements"⟩ : Reject)) = _
  rw [resolvePhase_mutated_eq]

theorem update_err_store (e : String) (s : Store) (records : List Record) :
    (update_measurement_user_data (some e) s records).store = s := by
  unfold update_measurement_user_data
  by_cases h : records.isEmpty
  · rw [if_pos h]
  · rw [if_neg h]

theorem update_err_count (e : String) (s : Store) (records : List Record) :
    (update_measurement_user_data (some e) s records).count = 0 := by
  unfold update_measurement_user_data
  by_cases h : records.isEmpty
  · rw [if_pos h]
  · rw [if_neg h]

theorem upsert_persons_eq (storeErr : Option String) (s : Store) (records : List Record) :
    (upsert_measurement_external storeErr s records).store.persons = s.persons := by
  unfold upsert_measurement_external
  by_cases h : records.isEmpty
  · rw [if_pos h]
  · rw [if_neg h]
    cases storeErr <;> rfl

theorem resolveMutate_of_unresolved (cache : List (String × Int)) (r : Record)
    (h : resolvePersonId cache r = none) : resolveMutate cache r = r := by
  simp [resolveMutate, h]

/-! ## Claim C3: no create-on-first-sight in the environmental flow -/

/-- Claim C3, counterexample.  An environmental record naming the unknown
subject Bob is rejected with the could-not-resolve reason — it is not
upserted and no subject is created. -/
theorem upsert_unknown_subject_cex :
    (upsert_measurement_external none storeAlice [recBob]).count = 0 ∧
    (upsert_measurement_external none storeAlice [recBob]).rejected =
      [⟨recBob, "Could not resolve person_id for record: Bob", "measurements"⟩] ∧
    (upsert_measurement_external none storeAlice [recBob]).store = storeAlice := by
  refine ⟨by decide, by decide, by decide⟩

/-- Claim C3, amended: `upsert_measurement_external` never creates
subjects — the persons table is untouched by both flows' loader calls —
and a record whose subject cannot be resolved against the existing
persons is rejected with the could-not-resolve reason, in the
environmental insert/update flow just as in the behavioral update-only
flow. -/
theorem upsert_no_subject_creation (storeErr : Option String) (s : Store)
    (records : List Record) (r : Record) (hr : r ∈ records)
    (hres : resolvePersonId (loadCache s) r = none) :
    (upsert_measurement_external storeErr s records).store.persons = s.persons ∧
    (⟨r, resolveErrMsg r, "measurements"⟩ : Reject) ∈
      (upsert_measurement_external storeErr s records).rejected := by
  have hne : records.isEmpty = false := by
    cases records with
    | nil => cases hr
    | cons a t => rfl
  refine ⟨upsert_persons_eq storeErr s records, ?_⟩
  unfold upsert_measurement_external
  rw [if_neg (by simp [hne])]
  cases storeErr with
  | none => exact resolvePhase_rejects_mem _ _ _ hr hres
  | some e => exact List.mem_append_left _ (resolvePhase_rejects_mem _ _ _ hr hres)

/-- Claim C3, amended: witness. -/
theorem upsert_no_subject_creation_witness :
    (upsert_measurement_external none storeAlice [recBob]).store.persons =
      storeAlice.persons ∧
    (⟨recBob, resolveErrMsg recBob, "measurements"⟩ : Reject) ∈
      (upsert_measurement_external none storeAlice [recBob]).rejected :=
  upsert_no_subject_creation none storeAlice [recBob] recBob (by decide) (by decide)

/-! ## Claim C4: store-error handling of the two flows -/

/-- Claim C4, counterexample.  When the bulk write of
`update_measurement_user_data` raises, the batch is rolled back but its
records are NOT appended to the rejected list: a one-record batch that
passed resolution and the ordering check returns an empty rejected list. -/
theorem update_store_error_no_rejects_cex :
    (update_measurement_user_data (some ("boom")) storeAliceRow [recAliceUser]).rejected
      = [] ∧
    ([recAliceUser] : List Record) ≠ [] := by
  refine ⟨by decide, by decide⟩

/-- Claim C4, corrected/amended: on a store-level error during the bulk
write both flows roll the batch back (store unchanged, count 0) and the
error does not propagate, but only `upsert_measurement_external` appends
every batch record to the rejected list with the store's error text;
`update_measurement_user_data` returns just the identity and ordering
rejections accumulated before the write. -/
theorem store_error_rollback_asymmetric (e : String) (s : Store)
    (records : List Record) (hne : records ≠ []) :
    ((upsert_measurement_external (some e) s records).store = s ∧
     (upsert_measurement_external (some e) s records).count = 0 ∧
     ∀ r ∈ records,
       (⟨resolveMutate (loadCache s) r, e, "measurements"⟩ : Reject) ∈
         (upsert_measurement_external (some e) s records).rejected) ∧
    ((update_measurement_user_data (some e) s records).store = s ∧
     (update_measurement_user_data (some e) s records).count = 0 ∧
     (update_measurement_user_data (some e) s records).rejected =
       (resolvePhase (loadCache s) records).rejects ++
         (orderingPhase (existingPairs s.rows (resolvePhase (loadCache s) records).valid)
           (resolvePhase (loadCache s) records).valid).rejects) := by
  refine ⟨⟨upsert_err_store e s records, upsert_err_count e s records, ?_⟩,
    update_err_store e s records, update_err_count e s records,
    update_rejected_eq (some e) s records hne⟩
  intro r hr
  rw [upsert_err_rejected e s records hne]
  exact List.mem_append_right _
    (List.mem_map_of_mem _ (List.mem_map_of_mem _ hr))

/-- Claim C4, witness. -/
theorem store_error_rollback_witness :
    (upsert_measurement_external (some ("boom")) storeAlice [recBob]).store = storeAlice ∧
    (⟨resolveMutate (loadCache storeAlice) recBob, "boom", "measurements"⟩ : Reject) ∈
      (upsert_measurement_external (some ("boom")) storeAlice [recBob]).rejected ∧
    (update_measurement_user_data (some ("boom")) storeAlice [recBob]).store =
      storeAlice := by
  have h := store_error_rollback_asymmetric ("boom") storeAlice [recBob] (by decide)
  exact ⟨h.1.1, h.1.2.2 recBob (by decide), h.2.1⟩

/-! ## Claim C10: double rejection on store error in the upsert flow -/

/-- Claim C10: when the bulk write of `upsert_measurement_external`
raises, a record already rejected for failed identity resolution appears
in the rejected list a second time (once with the identity reason, once
with the store error text), so the rejected count exceeds the batch
size. -/
theorem upsert_store_error_double_rejection (e : String) (s : Store)
    (records : List Record) (r : Record) (hr : r ∈ records)
    (hres : resolvePersonId (loadCache s) r = none) :
    (⟨r, resolveErrMsg r, "measurements"⟩ : Reject) ∈
      (upsert_measurement_external (some e) s records).rejected ∧
    (⟨r, e, "measurements"⟩ : Reject) ∈
      (upsert_measurement_external (some e) s records).rejected ∧
    (upsert_measurement_external (some e) s records).rejected.length >
      records.length := by
  have hne : records ≠ [] := by
    rintro rfl
    cases hr
  rw [upsert_err_rejected e s records hne]
  refine ⟨List.mem_append_left _ (resolvePhase_rejects_mem _ _ _ hr hres), ?_, ?_⟩
  · refine List.mem_append_right _ ?_
    have hmem : r ∈ records.map (resolveMutate (loadCache s)) := by
      have := List.mem_map_of_mem (resolveMutate (loadCache s)) hr
      rwa [resolveMutate_of_unresolved (loadCache s) r hres] at this
    exact List.mem_map_of_mem _ hmem
  · rw [List.length_append, List.length_map, List.length_map]
    have hpos : 0 < (resolvePhase (loadCache s) records).rejects.length :=
      List.length_pos.mpr (List.ne_nil_of_mem (resolvePhase_rejects_mem _ _ _ hr hres))
    omega

/-- Claim C10, witness: one unresolvable record against an empty batch
context — two rejections come back for a batch of one. -/
theorem upsert_store_error_double_rejection_witness :
    (⟨recBob, resolveErrMsg recBob, "measurements"⟩ : Reject) ∈
      (upsert_measurement_external (some ("boom")) storeAlice [recBob]).rejected ∧
    (⟨recBob, "boom", "measurements"⟩ : Reject) ∈
      (upsert_measurement_external (some ("boom")) storeAlice [recBob]).rejected ∧
    (upsert_measurement_external (some ("boom")) storeAlice [recBob]).rejected.length >
      ([recBob] : List Record).length :=
  upsert_store_error_double_rejection ("boom") storeAlice [recBob] recBob
    (by decide) (by decide)

/-! ## Helper lemmas about `upsertRow` -/

theorem keyMatch_set_env (pid : Int) (ts : Value) (row : Row) (env : EnvCols) :
    keyMatch pid ts { row with env := env } = keyMatch pid ts row := rfl

theorem filter_key_map (pid : Int) (ts : Value) (env : EnvCols) (rows : List Row) :
    ((rows.map (fun row => if keyMatch pid ts row then { row with env := env } else row)).filter
      (keyMatch pid ts)).length = (rows.filter (keyMatch pid ts)).length := by
  induction rows with
  | nil => rfl
  | cons a t ih =>
    by_cases h : keyMatch pid ts a
    · simp [List.filter_cons, h, keyMatch_set_env, ih]
    · simp [List.filter_cons, h, ih]

theorem filter_key_length_one (pid : Int) (ts : Value) (rows : List Row)
    (hnd : keysNodup rows) (hany : rows.any (keyMatch pid ts) = true) :
    (rows.filter (keyMatch pid ts)).length = 1 := by
  induction rows with
  | nil => simp at hany
  | cons a t ih =>
    have hnd' := List.pairwise_cons.mp hnd
    by_cases h : keyMatch pid ts a
    · have ha := of_decide_eq_true h
      have htail : t.filter (keyMatch pid ts) = [] := by
        rw [List.filter_eq_nil_iff]
        intro b hb
        intro hc
        have hb2 := of_decide_eq_true hc
        exact hnd'.1 b hb ⟨by rw [ha.1, hb2.1], by rw [ha.2, hb2.2]⟩
      rw [List.filter_cons, if_pos h, htail]
      rfl
    · rw [List.filter_cons, if_neg (by simpa using h)]
      apply ih hnd'.2
      simpa [List.any_cons, h] using hany

theorem upsertRow_any (rows : List Row) (pid : Int) (ts : Value) (env : EnvCols) :
    (upsertRow rows pid ts env).any (keyMatch pid ts) = true := by
  unfold upsertRow
  by_cases h : rows.any (keyMatch pid ts)
  · rw [if_pos h]
    obtain ⟨row, hrow, hm⟩ := List.any_eq_true.mp h
    refine List.any_eq_true.mpr ⟨_, List.mem_map_of_mem _ hrow, ?_⟩
    simp [hm, keyMatch_set_env]
  · rw [if_neg h]
    simp [List.any_append, keyMatch]

theorem upsertRow_env (rows : List Row) (pid : Int) (ts : Value) (env : EnvCols) :
    ∀ row ∈ upsertRow rows pid ts env, keyMatch pid ts row = true → row.env = env := by
  unfold upsertRow
  by_cases h : rows.any (keyMatch pid ts)
  · rw [if_pos h]
    intro row hrow hkey
    obtain ⟨row0, hrow0, heq⟩ := List.mem_map.mp hrow
    by_cases h0 : keyMatch pid ts row0
    · rw [← heq]
      simp [h0]
    · rw [← heq] at hkey
      simp [h0] at hkey
  · rw [if_neg h]
    intro row hrow hkey
    rcases List.mem_append.mp hrow with hl | hr
    · have hfalse : keyMatch pid ts row = false := by
        by_contra hc
        exact h (List.any_eq_true.mpr ⟨row, hl, by simpa using hc⟩)
      rw [hfalse] at hkey
      cases hkey
    · have hrw : row = ⟨pid, ts, env, behNull⟩ := by simpa using hr
      rw [hrw]

theorem list_map_id_of (l : List Row) (f : Row → Row) (h : ∀ a ∈ l, f a = a) :
    l.map f = l := by
  induction l with
  | nil => rfl
  | cons a t ih =>
    rw [List.map_cons, h a (List.mem_cons_self a t),
      ih (fun x hx => h x (List.mem_cons_of_mem a hx))]

theorem upsertRow_idem (rows : List Row) (pid : Int) (ts : Value) (env : EnvCols)
    (hany : rows.any (keyMatch pid ts) = true)
    (henv : ∀ row ∈ rows, keyMatch pid ts row = true → row.env = env) :
    upsertRow rows pid ts env = rows := by
  unfold upsertRow
  rw [if_pos hany]
  apply list_map_id_of
  intro a ha
  by_cases h : keyMatch pid ts a
  · simp only [h, if_true]
    rw [← henv a ha h]
  · simp [h]

theorem upsertRow_count (rows : List Row) (pid : Int) (ts : Value) (env : EnvCols)
    (hnd : keysNodup rows) :
    ((upsertRow rows pid ts env).filter (keyMatch pid ts)).length = 1 := by
  unfold upsertRow
  by_cases h : rows.any (keyMatch pid ts)
  · rw [if_pos h, filter_key_map, filter_key_length_one pid ts rows hnd h]
  · rw [if_neg h, List.filter_append]
    have h1 : rows.filter (keyMatch pid ts) = [] := by
      rw [List.filter_eq_nil_iff]
      intro b hb hc
      exact h (List.any_eq_true.mpr ⟨b, hb, by simpa using hc⟩)
    simp [h1, keyMatch]

theorem upsert_single_spec (s : Store) (r : Record) (pid : Int)
    (hres : resolvePersonId (loadCache s) r = some pid) :
    upsert_measurement_external none s [r] =
      ⟨1, [],
        { s with rows := (upsertRow s.rows pid
            (recGetD (setField r ("person_id") (Value.vint pid)) ("timestamp") Value.vnone)
            (envOfRecord (setField r ("person_id") (Value.vint pid)))) }⟩ := by
  unfold upsert_measurement_external
  rw [if_neg (by simp)]
  show (⟨(resolvePhase (loadCache s) [r]).valid.length,
      (resolvePhase (loadCache s) [r]).rejects,
      { s with rows := applyUpserts s.rows (resolvePhase (loadCache s) [r]).valid }⟩ :
      LoadOut) = _
  rw [show resolvePhase (loadCache s) [r] =
      ⟨[setField r ("person_id") (Value.vint pid)], [],
        [setField r ("person_id") (Value.vint pid)]⟩ from by
    simp [resolvePhase, hres]]
  have hpid : recPersonId (setField r ("person_id") (Value.vint pid)) = some pid := by
    simp [recPersonId, recGet_setField_self]
  simp [applyUpserts, hpid]

/-! ## Claim C9: idempotence of the environmental upsert -/

/-- Claim C9: upserting the same environmental record twice is idempotent.
After the first call exactly one measurements row exists for the resolved
`(person_id, timestamp)` key and its environmental columns hold the
written values; the second identical call leaves the store exactly as the
first left it. -/
theorem upsert_external_idempotent (s : Store) (r : Record) (pid : Int)
    (hres : resolvePersonId (loadCache s) r = some pid) (hnd : keysNodup s.rows) :
    (upsert_measurement_external none
        (upsert_measurement_external none s [r]).store [r]).store =
      (upsert_measurement_external none s [r]).store ∧
    ((upsert_measurement_external none s [r]).store.rows.filter
        (keyMatch pid (recGetD r ("timestamp") Value.vnone))).length = 1 ∧
    (∀ row ∈ (upsert_measurement_external none s [r]).store.rows,
      keyMatch pid (recGetD r ("timestamp") Value.vnone) row = true →
        row.env = envOfRecord (setField r ("person_id") (Value.vint pid))) := by
  have hts : recGetD (setField r ("person_id") (Value.vint pid)) ("timestamp") Value.vnone =
      recGetD r ("timestamp") Value.vnone := by
    unfold recGetD
    rw [recGet_setField_ne r _ _ _ (by decide)]
  rw [upsert_single_spec s r pid hres, hts]
  rw [upsert_single_spec
    { s with rows := (upsertRow s.rows pid (recGetD r ("timestamp") Value.vnone)
      (envOfRecord (setField r ("person_id") (Value.vint pid)))) } r pid hres, hts]
  refine ⟨?_, ?_, ?_⟩
  · show ({ s with rows := (upsertRow
        (upsertRow s.rows pid (recGetD r ("timestamp") Value.vnone)
          (envOfRecord (setField r ("person_id") (Value.vint pid))))
        pid (recGetD r ("timestamp") Value.vnone)
        (envOfRecord (setField r ("person_id") (Value.vint pid)))) } : Store) = _
    rw [upsertRow_idem _ _ _ _
      (upsertRow_any s.rows pid (recGetD r ("timestamp") Value.vnone)
        (envOfRecord (setField r ("person_id") (Value.vint pid))))
      (upsertRow_env s.rows pid (recGetD r ("timestamp") Value.vnone)
        (envOfRecord (setField r ("person_id") (Value.vint pid))))]
  · exact upsertRow_count s.rows pid (recGetD r ("timestamp") Value.vnone)
      (envOfRecord (setField r ("person_id") (Value.vint pid))) hnd
  · exact upsertRow_env s.rows pid (recGetD r ("timestamp") Value.vnone)
      (envOfRecord (setField r ("person_id") (Value.vint pid)))

/-- Claim C9, witness: re-upserting Alice's record over the empty store. -/
theorem upsert_external_idempotent_witness :
    (upsert_measurement_external none
        (upsert_measurement_external none storeAlice [recAliceEnv]).store
        [recAliceEnv]).store =
      (upsert_measurement_external none storeAlice [recAliceEnv]).store ∧
    ((upsert_measurement_external none storeAlice [recAliceEnv]).store.rows.filter
        (keyMatch 1 (recGetD recAliceEnv ("timestamp") Value.vnone))).length = 1 ∧
    (∀ row ∈ (upsert_measurement_external none storeAlice [recAliceEnv]).store.rows,
      keyMatch 1 (recGetD recAliceEnv ("timestamp") Value.vnone) row = true →
        row.env = envOfRecord (setField recAliceEnv ("person_id") (Value.vint 1))) :=
  upsert_external_idempotent storeAlice recAliceEnv 1 (by decide)
    (List.Pairwise.nil)
